import Mathlib

/-!
Verification of the Windows filesystem backend (src/filesystem/windows/SDL_sysfsops.c).

The five driver entry points are shallowly embedded as Lean functions.  Native
OS calls (GetLogicalDrives, FindFirstFileExW/FindNextFileW, GetFileAttributesExW,
RemoveDirectoryW, DeleteFileW, MoveFileExW, CreateDirectoryW) and the
string-encoding converter (WIN_UTF8ToString / WIN_StringToUTF8) are modelled as
oracles packaged in a per-call "world" structure: each oracle field records the
outcome the OS or converter would produce at the point the C code consults it.
Besides its int result, each embedded function returns the list of observable
events it performs, in program order: buffer allocations and releases, native
search-handle operations, native mutation calls, callback invocations (with the
exact arguments passed) and error reports.  Claims about resource discipline,
callback protocol and result codes are stated over that event trace.
-/

namespace SDLFsops

/-- Wide (UTF-16) strings handed back by the native search are modelled as
lists of code units, without the terminating NUL. -/
abbrev WStr := List Nat

/-- Windows FILE_ATTRIBUTE_DIRECTORY flag. -/
def FILE_ATTRIBUTE_DIRECTORY : Nat := 0x10

/-- Windows FILE_ATTRIBUTE_DEVICE flag. -/
def FILE_ATTRIBUTE_DEVICE : Nat := 0x40

/-- Windows FILE_ATTRIBUTE_OFFLINE flag. -/
def FILE_ATTRIBUTE_OFFLINE : Nat := 0x1000

/-- Windows MOVEFILE_REPLACE_EXISTING flag for MoveFileExW. -/
def MOVEFILE_REPLACE_EXISTING : Nat := 0x1

/-- SDL_NS_PER_SECOND constant (nanoseconds per second). -/
def SDL_NS_PER_SECOND : Nat := 1000000000

/-- Windows FILETIME: two 32-bit halves of a 64-bit count of 100ns ticks
since 1601-01-01. -/
structure FILETIME where
  dwLowDateTime : Nat
  dwHighDateTime : Nat
  deriving DecidableEq

/-- Windows WIN32_FILE_ATTRIBUTE_DATA as filled in by GetFileAttributesExW. -/
structure WIN32_FILE_ATTRIBUTE_DATA where
  dwFileAttributes : Nat
  ftCreationTime : FILETIME
  ftLastAccessTime : FILETIME
  ftLastWriteTime : FILETIME
  nFileSizeHigh : Nat
  nFileSizeLow : Nat
  deriving DecidableEq

/-- SDL_PathType enumeration. -/
inductive SDL_PathType where
  | NONE
  | FILE
  | DIRECTORY
  | OTHER
  deriving DecidableEq

/-- SDL_PathInfo, the caller-allocated stat result record. -/
structure SDL_PathInfo where
  type : SDL_PathType
  size : Nat
  create_time : Int
  modify_time : Int
  access_time : Int
  deriving DecidableEq

/-- Interpretation of an unsigned 64-bit value as a signed 64-bit integer,
as performed by the C cast to Sint64 (two's complement reinterpretation). -/
def toSigned64 (n : Nat) : Int :=
  if n % 2 ^ 64 < 2 ^ 63 then ((n % 2 ^ 64 : Nat) : Int)
  else ((n % 2 ^ 64 : Nat) : Int) - 2 ^ 64

/-- Number of 100ns ticks between 1601-01-01 and 1970-01-01
(11644473600 seconds times 10000000), the constant from FileTimeToSDLTime. -/
def delta_1601_epoch_100ns : Nat := 11644473600 * 10000000

/-- FileTimeToSDLTime from SDL_sysfsops.c.  The ULARGE_INTEGER QuadPart is
assembled as HighPart * 2^32 + LowPart; if it is zero the function returns 0,
otherwise it subtracts the 1601-to-1970 offset in unsigned 64-bit arithmetic
(wrapping modulo 2^64), divides by SDL_NS_PER_SECOND / 100 = 10^7 ticks per
second, and casts the unsigned quotient to Sint64. -/
def FileTimeToSDLTime (ft : FILETIME) : Int :=
  if (ft.dwHighDateTime % 2 ^ 32) * 2 ^ 32 + ft.dwLowDateTime % 2 ^ 32 = 0 then 0
  else
    toSigned64 (((ft.dwHighDateTime % 2 ^ 32) * 2 ^ 32 + ft.dwLowDateTime % 2 ^ 32
        + 2 ^ 64 - delta_1601_epoch_100ns) % 2 ^ 64 / (SDL_NS_PER_SECOND / 100))

/-- Identities of the heap buffers and native handles a single call can hold. -/
inductive Res where
  | pattern
  | wpattern
  | utf8fn (idx : Nat)
  | findHandle
  | wpath
  | woldpath
  | wnewpath
  deriving DecidableEq

/-- Observable events of one driver call, in program order. -/
inductive Event where
  | alloc (r : Res)
  | free (r : Res)
  | queryDrives
  | findFirst
  | findNext
  | findClose
  | cbCall (parent : Option String) (dirname : String) (entryName : String) (result : Int)
  | nativeGetAttrs
  | nativeRemoveDir
  | nativeDeleteFile
  | nativeMove (flags : Nat)
  | nativeMkdir
  | setError
  deriving DecidableEq

/-- Whether an event is a callback invocation. -/
def isCb : Event → Bool
  | Event.cbCall _ _ _ _ => true
  | _ => false

/-- Whether an event is a callback invocation or a native next-entry call. -/
def isCbOrNext : Event → Bool
  | Event.cbCall _ _ _ _ => true
  | Event.findNext => true
  | _ => false

/-- The callback-invocation events of a trace, in order. -/
def cbEvents (tr : List Event) : List Event := tr.filter isCb

/-- Number of callback invocations in a trace. -/
def countCb (tr : List Event) : Nat := (cbEvents tr).length

/-- The resources allocated in a trace, in order. -/
def allocsOf (tr : List Event) : List Res :=
  tr.filterMap fun e =>
    match e with
    | Event.alloc r => some r
    | _ => none

/-- The resources released in a trace, in order. -/
def freesOf (tr : List Event) : List Res :=
  tr.filterMap fun e =>
    match e with
    | Event.free r => some r
    | _ => none

/-- A trace is balanced when its releases are a permutation of its
acquisitions: every buffer and handle acquired is released. -/
abbrev balanced (tr : List Event) : Prop := (allocsOf tr).Perm (freesOf tr)

/-- The flag arguments of the native move calls in a trace. -/
def moveFlagsOf (tr : List Event) : List Nat :=
  tr.filterMap fun e =>
    match e with
    | Event.nativeMove f => some f
    | _ => none

/-- Oracle world for one SDL_SYS_FSenumerate call: the drive bitmask
GetLogicalDrives would return, whether SDL_malloc and the pattern's
WIN_UTF8ToString conversion succeed, the result of FindFirstFileExW (none for
INVALID_HANDLE_VALUE, otherwise the first entry and the successive entries
FindNextFileW would yield), the per-entry WIN_StringToUTF8 converter, and the
caller callback (indexed by invocation count, applied to the entry name). -/
structure EnumWorld where
  drives : Nat
  mallocOk : Bool
  wpatternOk : Bool
  findFirst : Option (WStr × List WStr)
  toUTF8 : WStr → Option String
  cb : Nat → String → Int

/-- Drive pseudo-entry name: the string "X:" for drive index i (0 = letter A),
built exactly as the C char name[3] buffer is. -/
def driveName (i : Nat) : String := String.mk [Char.ofNat (65 + i), ':']

/-- The C test fn[0]=='.' and (fn[1]==0 or (fn[1]=='.' and fn[2]==0)):
the native name is exactly "." or exactly "..". -/
def isDotEntry (fn : WStr) : Bool :=
  match fn with
  | [46] => true
  | [46, 46] => true
  | _ => false

/-- The drive-letter loop of SDL_SYS_FSenumerate: for each candidate index in
order, while the running result is 1, invoke the callback on "X:" when the
drive bit is set.  The k argument counts callback invocations. -/
def driveLoop (drives : Nat) (cb : Nat → String → Int) (dirname : String) :
    List Nat → Nat → Int × List Event
  | [], _ => (1, [])
  | i :: rest, k =>
    if drives.testBit i then
      if cb k (driveName i) = 1 then
        let next := driveLoop drives cb dirname rest (k + 1)
        (next.1, Event.cbCall none dirname (driveName i) (cb k (driveName i)) :: next.2)
      else
        (cb k (driveName i), [Event.cbCall none dirname (driveName i) (cb k (driveName i))])
    else
      driveLoop drives cb dirname rest k

/-- One iteration body of the directory enumeration loop: skip "." and "..",
otherwise convert the native name; on conversion failure set the result to -1
with no callback, otherwise allocate the UTF-8 name, invoke the callback and
release the name.  Returns the new running result, the events, and the updated
invocation counter. -/
def processEntry (toUTF8 : WStr → Option String) (cb : Nat → String → Int)
    (dirname : String) (entw : WStr) (k : Nat) : Int × List Event × Nat :=
  if isDotEntry entw then (1, [], k)
  else
    match toUTF8 entw with
    | none => (-1, [], k)
    | some name =>
      (cb k name,
       [Event.alloc (Res.utf8fn k), Event.cbCall none dirname name (cb k name),
        Event.free (Res.utf8fn k)], k + 1)

/-- The do/while loop of SDL_SYS_FSenumerate: process the current entry; while
the running result is 1, call FindNextFileW and continue with the next entry
until the native search is exhausted. -/
def enumLoop (toUTF8 : WStr → Option String) (cb : Nat → String → Int)
    (dirname : String) : WStr → List WStr → Nat → Int × List Event
  | entw, rest, k =>
    let step := processEntry toUTF8 cb dirname entw k
    if step.1 = 1 then
      match rest with
      | [] => (1, step.2.1 ++ [Event.findNext])
      | e :: rest2 =>
        let next := enumLoop toUTF8 cb dirname e rest2 step.2.2
        (next.1, step.2.1 ++ Event.findNext :: next.2)
    else
      (step.1, step.2.1)

/-- SDL_SYS_FSenumerate.  Empty fullpath: enumerate drive letters A..Z from the
GetLogicalDrives bitmask.  Otherwise: allocate the pattern buffer, convert it
(releasing the pattern buffer right after the conversion), open the native
search (releasing the wide pattern right after), run the entry loop, close the
search handle, and return the running result. -/
def SDL_SYS_FSenumerate (w : EnumWorld) (fullpath dirname : String) : Int × List Event :=
  if fullpath = "" then
    let res := driveLoop w.drives w.cb dirname (List.range 26) 0
    (res.1, Event.queryDrives :: res.2)
  else if w.mallocOk = false then
    (-1, [])
  else if w.wpatternOk = false then
    (-1, [Event.alloc Res.pattern, Event.free Res.pattern])
  else
    match w.findFirst with
    | none =>
      (-1, [Event.alloc Res.pattern, Event.alloc Res.wpattern, Event.free Res.pattern,
            Event.findFirst, Event.free Res.wpattern, Event.setError])
    | some (entw, rest) =>
      let loop := enumLoop w.toUTF8 w.cb dirname entw rest 0
      (loop.1,
       [Event.alloc Res.pattern, Event.alloc Res.wpattern, Event.free Res.pattern,
        Event.findFirst, Event.alloc Res.findHandle, Event.free Res.wpattern]
       ++ loop.2 ++ [Event.findClose, Event.free Res.findHandle])

/-- The native error codes SDL_SYS_FSremove distinguishes after a failing
GetFileAttributesExW. -/
inductive WinError where
  | fileNotFound
  | pathNotFound
  | other
  deriving DecidableEq

/-- Oracle world for one SDL_SYS_FSremove call: whether the WIN_UTF8ToString
conversion succeeds, the GetFileAttributesExW outcome (error code or attribute
data), and whether the native RemoveDirectoryW / DeleteFileW call succeeds. -/
structure RemoveWorld where
  wpathOk : Bool
  getAttrs : Except WinError WIN32_FILE_ATTRIBUTE_DATA
  deleteOk : Bool

/-- SDL_SYS_FSremove.  Converts the path, queries the attributes; on
ERROR_FILE_NOT_FOUND returns 0 immediately, on any other query failure reports
the error and returns -1 (both early returns mirror the C code exactly: no
release of the converted path happens on them); otherwise removes a directory
or deletes a file according to the directory attribute bit, releases the
converted path and returns 0 or the reported error. -/
def SDL_SYS_FSremove (w : RemoveWorld) : Int × List Event :=
  if w.wpathOk = false then
    (-1, [])
  else
    match w.getAttrs with
    | Except.error e =>
      if e = WinError.fileNotFound then
        (0, [Event.alloc Res.wpath, Event.nativeGetAttrs])
      else
        (-1, [Event.alloc Res.wpath, Event.nativeGetAttrs, Event.setError])
    | Except.ok info =>
      let deleteEv :=
        if info.dwFileAttributes &&& FILE_ATTRIBUTE_DIRECTORY ≠ 0 then Event.nativeRemoveDir
        else Event.nativeDeleteFile
      if w.deleteOk then
        (0, [Event.alloc Res.wpath, Event.nativeGetAttrs, deleteEv, Event.free Res.wpath])
      else
        (-1, [Event.alloc Res.wpath, Event.nativeGetAttrs, deleteEv, Event.free Res.wpath,
              Event.setError])

/-- Oracle world for one SDL_SYS_FSrename call: whether each of the two
WIN_UTF8ToString conversions succeeds and whether MoveFileExW succeeds. -/
structure RenameWorld where
  woldOk : Bool
  wnewOk : Bool
  moveOk : Bool
  deriving DecidableEq

/-- SDL_SYS_FSrename.  Converts the old path, then the new path (releasing the
old-path buffer if the second conversion fails), issues one MoveFileExW with
MOVEFILE_REPLACE_EXISTING, releases both buffers and returns 0 or the reported
error. -/
def SDL_SYS_FSrename (w : RenameWorld) : Int × List Event :=
  if w.woldOk = false then
    (-1, [])
  else if w.wnewOk = false then
    (-1, [Event.alloc Res.woldpath, Event.free Res.woldpath])
  else if w.moveOk then
    (0, [Event.alloc Res.woldpath, Event.alloc Res.wnewpath,
         Event.nativeMove MOVEFILE_REPLACE_EXISTING,
         Event.free Res.wnewpath, Event.free Res.woldpath])
  else
    (-1, [Event.alloc Res.woldpath, Event.alloc Res.wnewpath,
          Event.nativeMove MOVEFILE_REPLACE_EXISTING,
          Event.free Res.wnewpath, Event.free Res.woldpath, Event.setError])

/-- Oracle world for one SDL_SYS_FSmkdir call. -/
structure MkdirWorld where
  wpathOk : Bool
  createOk : Bool
  deriving DecidableEq

/-- SDL_SYS_FSmkdir: convert the path, issue CreateDirectoryW, release the
buffer, return 0 or the reported error. -/
def SDL_SYS_FSmkdir (w : MkdirWorld) : Int × List Event :=
  if w.wpathOk = false then
    (-1, [])
  else if w.createOk then
    (0, [Event.alloc Res.wpath, Event.nativeMkdir, Event.free Res.wpath])
  else
    (-1, [Event.alloc Res.wpath, Event.nativeMkdir, Event.free Res.wpath, Event.setError])

/-- Oracle world for one SDL_SYS_FSstat call: whether the conversion succeeds
and the GetFileAttributesExW outcome. -/
structure StatWorld where
  wpathOk : Bool
  getAttrs : Option WIN32_FILE_ATTRIBUTE_DATA

/-- SDL_SYS_FSstat.  Converts the path, queries the attributes (releasing the
converted path right after the query, before the failure check), classifies
the target by attribute bits, assembles the 64-bit size from the two 32-bit
words, fills the three timestamps through FileTimeToSDLTime, and returns 1. -/
def SDL_SYS_FSstat (w : StatWorld) : Int × Option SDL_PathInfo × List Event :=
  if w.wpathOk = false then
    (-1, none, [])
  else
    match w.getAttrs with
    | none =>
      (-1, none, [Event.alloc Res.wpath, Event.nativeGetAttrs, Event.free Res.wpath,
                  Event.setError])
    | some winstat =>
      let size := ((winstat.nFileSizeHigh % 2 ^ 32) <<< 32) ||| (winstat.nFileSizeLow % 2 ^ 32)
      let ct := FileTimeToSDLTime winstat.ftCreationTime
      let mt := FileTimeToSDLTime winstat.ftLastWriteTime
      let at2 := FileTimeToSDLTime winstat.ftLastAccessTime
      let info :=
        if winstat.dwFileAttributes &&& FILE_ATTRIBUTE_DIRECTORY ≠ 0 then
          SDL_PathInfo.mk SDL_PathType.DIRECTORY 0 ct mt at2
        else if winstat.dwFileAttributes &&& (FILE_ATTRIBUTE_OFFLINE ||| FILE_ATTRIBUTE_DEVICE) ≠ 0 then
          SDL_PathInfo.mk SDL_PathType.OTHER size ct mt at2
        else
          SDL_PathInfo.mk SDL_PathType.FILE size ct mt at2
      (1, some info, [Event.alloc Res.wpath, Event.nativeGetAttrs, Event.free Res.wpath])

/-- Spec-side reference for the enumeration callback protocol, modelled from
the specification text of section 4.1: scan the entries the native search
yields in order, always suppress the "." and ".." pseudo-entries, convert each
remaining name to UTF-8 and deliver it, stopping at a conversion failure or
once a callback invocation returns a value other than 1.  Produces the list of
(delivered name, callback result) pairs. -/
def specEnumDelivered (toUTF8 : WStr → Option String) (cb : Nat → String → Int) :
    List WStr → Nat → List (String × Int)
  | [], _ => []
  | e :: rest, k =>
    if isDotEntry e then specEnumDelivered toUTF8 cb rest k
    else
      match toUTF8 e with
      | none => []
      | some n =>
        if cb k n = 1 then (n, cb k n) :: specEnumDelivered toUTF8 cb rest (k + 1)
        else [(n, cb k n)]

/-- Event traces with no callback invocation and no native next-entry call. -/
def noCbNext (tr : List Event) : Bool := tr.all fun e => !isCbOrNext e

/-- The early-termination discipline of the enumeration protocol: scanning the
trace, every callback invocation that returns a value other than 1 is followed
by no further callback invocation and no further native next-entry call, and
the call's result is that callback's return value. -/
def stopsOnNonOne : List Event → Int → Prop
  | [], _ => True
  | e :: tl, res =>
    match e with
    | Event.cbCall _ _ _ r =>
      if r = 1 then stopsOnNonOne tl res else (noCbNext tl = true ∧ res = r)
    | _ => stopsOnNonOne tl res

/-- Concrete enumeration world for the five-entry early-stop scenario: five
real entries, a converter that spells each code unit, and a callback that
returns 0 on its third invocation. -/
def demoStopWorld : EnumWorld :=
  EnumWorld.mk 0 true true (some ([65], [[66], [67], [68], [69]]))
    (fun wtext => some (String.mk (wtext.map Char.ofNat)))
    (fun k _ => if k = 2 then 0 else 1)

/-- Concrete enumeration world with drive bits A and B set and a callback that
stops immediately. -/
def earlyStopDrivesWorld : EnumWorld :=
  EnumWorld.mk 3 true true none (fun _ => none) (fun _ _ => 0)

/-- Concrete enumeration world with a single non-dot entry whose UTF-8
conversion fails. -/
def convFailWorld : EnumWorld :=
  EnumWorld.mk 0 true true (some ([65], [])) (fun _ => none) (fun _ _ => 1)

/-- Concrete enumeration world whose pattern-buffer allocation fails. -/
def mallocFailWorld : EnumWorld :=
  EnumWorld.mk 0 false true none (fun _ => none) (fun _ _ => 1)

/-- Concrete enumeration world with drive bits A and C set and a callback that
always continues. -/
def allOneDrivesWorld : EnumWorld :=
  EnumWorld.mk 5 true true none (fun _ => none) (fun _ _ => 1)

/-- Concrete enumeration world with two real entries, a total converter and a
callback that always continues. -/
def allOneEntriesWorld : EnumWorld :=
  EnumWorld.mk 0 true true (some ([65], [[66]]))
    (fun wtext => some (String.mk (wtext.map Char.ofNat)))
    (fun _ _ => 1)

/-- Concrete attribute data for a five-byte regular file with zero
timestamps. -/
def statDemoData : WIN32_FILE_ATTRIBUTE_DATA :=
  WIN32_FILE_ATTRIBUTE_DATA.mk 0x20 (FILETIME.mk 0 0) (FILETIME.mk 0 0) (FILETIME.mk 0 0) 0 5

/-- Concrete stat world in which the conversion and the attribute query both
succeed, yielding statDemoData. -/
def statDemoWorld : StatWorld := StatWorld.mk true (some statDemoData)

/-! ### Helper lemmas about traces and the enumeration loops -/

theorem isCb_false_of_not_cbOrNext (e : Event) (h : isCbOrNext e = false) : isCb e = false := by
  cases e <;> simp [isCb, isCbOrNext] at h ⊢

theorem stopsOnNonOne_nil (res : Int) : stopsOnNonOne [] res := trivial

theorem stopsOnNonOne_cons_of_not_cb (e : Event) (tl : List Event) (res : Int)
    (h : isCb e = false) : stopsOnNonOne (e :: tl) res ↔ stopsOnNonOne tl res := by
  cases e <;> simp [isCb] at h ⊢ <;> simp [stopsOnNonOne]

theorem stopsOnNonOne_of_all_not_cb (tr : List Event) (res : Int)
    (h : tr.all (fun e => !isCb e) = true) : stopsOnNonOne tr res := by
  induction tr with
  | nil => exact trivial
  | cons e tl ih =>
    simp only [List.all_cons, Bool.and_eq_true, Bool.not_eq_true'] at h
    exact (stopsOnNonOne_cons_of_not_cb e tl res h.1).mpr (ih h.2)

theorem stopsOnNonOne_append_front (pre tr : List Event) (res : Int)
    (h : pre.all (fun e => !isCb e) = true) :
    stopsOnNonOne (pre ++ tr) res ↔ stopsOnNonOne tr res := by
  induction pre with
  | nil => simp
  | cons e tl ih =>
    simp only [List.all_cons, Bool.and_eq_true, Bool.not_eq_true'] at h
    rw [List.cons_append, stopsOnNonOne_cons_of_not_cb e (tl ++ tr) res h.1]
    exact ih h.2

theorem stopsOnNonOne_append_back (tr s : List Event) (res : Int)
    (h1 : stopsOnNonOne tr res) (h2 : noCbNext s = true) :
    stopsOnNonOne (tr ++ s) res := by
  induction tr with
  | nil =>
    refine stopsOnNonOne_of_all_not_cb s res ?_
    simp only [noCbNext, List.all_eq_true] at h2 ⊢
    intro e he
    simpa using isCb_false_of_not_cbOrNext e (by simpa using h2 e he)
  | cons e tl ih =>
    cases e with
    | cbCall p d n r =>
      rw [List.cons_append]
      simp only [stopsOnNonOne] at h1 ⊢
      by_cases hr : r = 1
      · rw [if_pos hr] at h1 ⊢
        exact ih h1
      · rw [if_neg hr] at h1 ⊢
        refine ⟨?_, h1.2⟩
        simp only [noCbNext, List.all_append, Bool.and_eq_true]
        exact ⟨h1.1, h2⟩
    | alloc r => simpa [stopsOnNonOne] using ih (by simpa [stopsOnNonOne] using h1)
    | free r => simpa [stopsOnNonOne] using ih (by simpa [stopsOnNonOne] using h1)
    | queryDrives => simpa [stopsOnNonOne] using ih (by simpa [stopsOnNonOne] using h1)
    | findFirst => simpa [stopsOnNonOne] using ih (by simpa [stopsOnNonOne] using h1)
    | findNext => simpa [stopsOnNonOne] using ih (by simpa [stopsOnNonOne] using h1)
    | findClose => simpa [stopsOnNonOne] using ih (by simpa [stopsOnNonOne] using h1)
    | nativeGetAttrs => simpa [stopsOnNonOne] using ih (by simpa [stopsOnNonOne] using h1)
    | nativeRemoveDir => simpa [stopsOnNonOne] using ih (by simpa [stopsOnNonOne] using h1)
    | nativeDeleteFile => simpa [stopsOnNonOne] using ih (by simpa [stopsOnNonOne] using h1)
    | nativeMove f => simpa [stopsOnNonOne] using ih (by simpa [stopsOnNonOne] using h1)
    | nativeMkdir => simpa [stopsOnNonOne] using ih (by simpa [stopsOnNonOne] using h1)
    | setError => simpa [stopsOnNonOne] using ih (by simpa [stopsOnNonOne] using h1)

theorem driveLoop_stops (drives : Nat) (cb : Nat → String → Int) (dirname : String)
    (l : List Nat) (k : Nat) :
    stopsOnNonOne (driveLoop drives cb dirname l k).2 (driveLoop drives cb dirname l k).1 := by
  induction l generalizing k with
  | nil => exact trivial
  | cons i rest ih =>
    by_cases hb : drives.testBit i
    · by_cases hr : cb k (driveName i) = 1
      · simpa [driveLoop, hb, hr, stopsOnNonOne] using ih (k + 1)
      · simp [driveLoop, hb, hr, stopsOnNonOne, noCbNext]
    · simpa [driveLoop, hb] using ih k

theorem enumLoop_stops (toUTF8 : WStr → Option String) (cb : Nat → String → Int)
    (dirname : String) (entw : WStr) (rest : List WStr) (k : Nat) :
    stopsOnNonOne (enumLoop toUTF8 cb dirname entw rest k).2
      (enumLoop toUTF8 cb dirname entw rest k).1 := by
  induction rest generalizing entw k with
  | nil =>
    by_cases hd : isDotEntry entw
    · simp [enumLoop, processEntry, hd, stopsOnNonOne]
    · cases hc : toUTF8 entw with
      | none => simp [enumLoop, processEntry, hd, hc, stopsOnNonOne]
      | some n =>
        by_cases hr : cb k n = 1
        · simp [enumLoop, processEntry, hd, hc, hr, stopsOnNonOne]
        · simp [enumLoop, processEntry, hd, hc, hr, stopsOnNonOne, noCbNext, isCbOrNext]
  | cons e rest2 ih =>
    by_cases hd : isDotEntry entw
    · simpa [enumLoop, processEntry, hd, stopsOnNonOne] using ih e k
    · cases hc : toUTF8 entw with
      | none => simp [enumLoop, processEntry, hd, hc, stopsOnNonOne]
      | some n =>
        by_cases hr : cb k n = 1
        · simpa [enumLoop, processEntry, hd, hc, hr, stopsOnNonOne] using ih e (k + 1)
        · simp [enumLoop, processEntry, hd, hc, hr, stopsOnNonOne, noCbNext, isCbOrNext]

theorem cbEvents_append (a b : List Event) : cbEvents (a ++ b) = cbEvents a ++ cbEvents b := by
  simp [cbEvents]

theorem driveLoop_const_one (drives : Nat) (cb : Nat → String → Int) (dirname : String)
    (hcb : ∀ k n, cb k n = 1) (l : List Nat) (k : Nat) :
    driveLoop drives cb dirname l k =
      (1, (l.filter fun i => drives.testBit i).map
        fun i => Event.cbCall none dirname (driveName i) 1) := by
  induction l generalizing k with
  | nil => simp [driveLoop]
  | cons i rest ih =>
    by_cases hb : drives.testBit i
    · simp [driveLoop, hb, hcb, ih (k + 1)]
    · simp [driveLoop, hb, ih k]

theorem enumLoop_cbEvents (toUTF8 : WStr → Option String) (cb : Nat → String → Int)
    (dirname : String) (entw : WStr) (rest : List WStr) (k : Nat) :
    cbEvents (enumLoop toUTF8 cb dirname entw rest k).2 =
      (specEnumDelivered toUTF8 cb (entw :: rest) k).map
        fun p => Event.cbCall none dirname p.1 p.2 := by
  induction rest generalizing entw k with
  | nil =>
    by_cases hd : isDotEntry entw
    · simp [enumLoop, processEntry, hd, specEnumDelivered, cbEvents, isCb]
    · cases hc : toUTF8 entw with
      | none => simp [enumLoop, processEntry, hd, hc, specEnumDelivered, cbEvents, isCb]
      | some n =>
        by_cases hr : cb k n = 1
        · simp [enumLoop, processEntry, hd, hc, hr, specEnumDelivered, cbEvents, isCb]
        · simp [enumLoop, processEntry, hd, hc, hr, specEnumDelivered, cbEvents, isCb]
  | cons e rest2 ih =>
    by_cases hd : isDotEntry entw
    · simpa [enumLoop, processEntry, hd, specEnumDelivered, cbEvents, isCb] using ih e k
    · cases hc : toUTF8 entw with
      | none => simp [enumLoop, processEntry, hd, hc, specEnumDelivered, cbEvents, isCb]
      | some n =>
        by_cases hr : cb k n = 1
        · simpa [enumLoop, processEntry, hd, hc, hr, specEnumDelivered, cbEvents, isCb]
            using ih e (k + 1)
        · simp [enumLoop, processEntry, hd, hc, hr, specEnumDelivered, cbEvents, isCb]

theorem enumLoop_const_one (toUTF8 : WStr → Option String) (cb : Nat → String → Int)
    (dirname : String) (entw : WStr) (rest : List WStr) (k : Nat)
    (hcb : ∀ k n, cb k n = 1)
    (hconv : ∀ x, x ∈ entw :: rest → (toUTF8 x).isSome = true) :
    (enumLoop toUTF8 cb dirname entw rest k).1 = 1 := by
  induction rest generalizing entw k with
  | nil =>
    by_cases hd : isDotEntry entw
    · simp [enumLoop, processEntry, hd]
    · cases hc : toUTF8 entw with
      | none =>
        have := hconv entw (by simp)
        rw [hc] at this
        simp at this
      | some n => simp [enumLoop, processEntry, hd, hc, hcb]
  | cons e rest2 ih =>
    have hconv2 : ∀ x, x ∈ e :: rest2 → (toUTF8 x).isSome = true := by
      intro x hx
      exact hconv x (by simp [List.mem_cons] at hx ⊢; tauto)
    by_cases hd : isDotEntry entw
    · simpa [enumLoop, processEntry, hd] using ih e k hconv2
    · cases hc : toUTF8 entw with
      | none =>
        have := hconv entw (by simp)
        rw [hc] at this
        simp at this
      | some n => simpa [enumLoop, processEntry, hd, hc, hcb] using ih e (k + 1) hconv2

/-! ### Claim theorems -/

/-- C1: the claim states that every temporary native-encoding buffer is
released before the call returns on every exit path, and in particular that
SDL_SYS_FSremove releases its converted wide-path buffer on the path-not-found
success return and on the attribute-query failure return.  The code violates
this: when GetFileAttributesExW fails with ERROR_FILE_NOT_FOUND the function
returns 0 without freeing wpath, and on any other attribute-query failure it
returns the reported error without freeing wpath.  This theorem evaluates the
embedded SDL_SYS_FSremove on both failing worlds and shows the wide-path
buffer is allocated but never released on those returns. -/
theorem remove_leaks_wpath_on_early_returns :
    (SDL_SYS_FSremove (RemoveWorld.mk true (Except.error WinError.fileNotFound) true)).1 = 0 ∧
    Event.alloc Res.wpath ∈
      (SDL_SYS_FSremove (RemoveWorld.mk true (Except.error WinError.fileNotFound) true)).2 ∧
    Event.free Res.wpath ∉
      (SDL_SYS_FSremove (RemoveWorld.mk true (Except.error WinError.fileNotFound) true)).2 ∧
    (SDL_SYS_FSremove (RemoveWorld.mk true (Except.error WinError.other) true)).1 = -1 ∧
    Event.alloc Res.wpath ∈
      (SDL_SYS_FSremove (RemoveWorld.mk true (Except.error WinError.other) true)).2 ∧
    Event.free Res.wpath ∉
      (SDL_SYS_FSremove (RemoveWorld.mk true (Except.error WinError.other) true)).2 := by
  decide

/-- C2: if the attribute query fails with the file-not-found native error
(missing leaf), SDL_SYS_FSremove returns 0, the idempotent-deletion success;
if it fails with the path-not-found native error (missing ancestor), the call
returns -1, a surfaced failure with an error report, not success. -/
theorem remove_missing_leaf_succeeds_missing_parent_fails (w : RemoveWorld)
    (hconv : w.wpathOk = true) :
    (w.getAttrs = Except.error WinError.fileNotFound → (SDL_SYS_FSremove w).1 = 0) ∧
    (w.getAttrs = Except.error WinError.pathNotFound →
      (SDL_SYS_FSremove w).1 = -1 ∧ (SDL_SYS_FSremove w).1 ≠ 0 ∧
      Event.setError ∈ (SDL_SYS_FSremove w).2) := by
  constructor
  · intro h
    simp [SDL_SYS_FSremove, hconv, h]
  · intro h
    simp [SDL_SYS_FSremove, hconv, h]

/-- Witness for C2, at the two concrete remove worlds whose attribute query
fails with file-not-found and with path-not-found respectively. -/
theorem remove_missing_leaf_succeeds_missing_parent_fails_witness :
    (SDL_SYS_FSremove (RemoveWorld.mk true (Except.error WinError.fileNotFound) true)).1 = 0 ∧
    ((SDL_SYS_FSremove (RemoveWorld.mk true (Except.error WinError.pathNotFound) true)).1 = -1 ∧
      (SDL_SYS_FSremove (RemoveWorld.mk true (Except.error WinError.pathNotFound) true)).1 ≠ 0 ∧
      Event.setError ∈
        (SDL_SYS_FSremove (RemoveWorld.mk true (Except.error WinError.pathNotFound) true)).2) :=
  ⟨(remove_missing_leaf_succeeds_missing_parent_fails _ rfl).1 rfl,
   (remove_missing_leaf_succeeds_missing_parent_fails _ rfl).2 rfl⟩

/-- C8: the two rename path conversions are independent; if the first fails
the call returns -1 having allocated nothing, if the second fails the call
releases the already-converted old-path buffer and returns -1, and in both
failure cases no native move is attempted; otherwise exactly one native move
is issued, always with the MOVEFILE_REPLACE_EXISTING flag, and every buffer
acquired is released. -/
theorem rename_independent_conversions_always_replace (w : RenameWorld) :
    (w.woldOk = false →
      (SDL_SYS_FSrename w).1 = -1 ∧ (SDL_SYS_FSrename w).2 = [] ∧
      moveFlagsOf (SDL_SYS_FSrename w).2 = []) ∧
    (w.woldOk = true → w.wnewOk = false →
      (SDL_SYS_FSrename w).1 = -1 ∧
      (SDL_SYS_FSrename w).2 = [Event.alloc Res.woldpath, Event.free Res.woldpath] ∧
      moveFlagsOf (SDL_SYS_FSrename w).2 = []) ∧
    (w.woldOk = true → w.wnewOk = true →
      moveFlagsOf (SDL_SYS_FSrename w).2 = [MOVEFILE_REPLACE_EXISTING] ∧
      balanced (SDL_SYS_FSrename w).2) := by
  rcases w with ⟨o, n, m⟩
  cases o <;> cases n <;> cases m <;> decide

/-- Witness for C8, at the three concrete rename worlds covering a failing
first conversion, a failing second conversion, and two successful
conversions. -/
theorem rename_independent_conversions_always_replace_witness :
    ((SDL_SYS_FSrename (RenameWorld.mk false true true)).1 = -1 ∧
      (SDL_SYS_FSrename (RenameWorld.mk false true true)).2 = [] ∧
      moveFlagsOf (SDL_SYS_FSrename (RenameWorld.mk false true true)).2 = []) ∧
    ((SDL_SYS_FSrename (RenameWorld.mk true false true)).1 = -1 ∧
      (SDL_SYS_FSrename (RenameWorld.mk true false true)).2 =
        [Event.alloc Res.woldpath, Event.free Res.woldpath] ∧
      moveFlagsOf (SDL_SYS_FSrename (RenameWorld.mk true false true)).2 = []) ∧
    (moveFlagsOf (SDL_SYS_FSrename (RenameWorld.mk true true true)).2 =
        [MOVEFILE_REPLACE_EXISTING] ∧
      balanced (SDL_SYS_FSrename (RenameWorld.mk true true true)).2) :=
  ⟨(rename_independent_conversions_always_replace _).1 rfl,
   (rename_independent_conversions_always_replace _).2.1 rfl rfl,
   (rename_independent_conversions_always_replace _).2.2 rfl rfl⟩

theorem shiftLeft32_or_eq_mul_add (hiS loS : Nat) (hlo : loS < 2 ^ 32) :
    (hiS <<< 32) ||| loS = hiS * 2 ^ 32 + loS := by
  have h := Nat.mul_add_lt_is_or hlo hiS
  rw [Nat.shiftLeft_eq, Nat.mul_comm hiS (2 ^ 32), ← h]

/-- C5: when the stat attribute query succeeds, the populated info classifies
a directory-attributed target as DIRECTORY with size 0; otherwise an offline-
or device-attributed target as OTHER, and anything else as FILE, both with the
size assembled from the native high and low 32-bit size words; the three
timestamps each go through FileTimeToSDLTime on their own native field; and
the call returns the positive sentinel 1, distinct from the 0 success code of
the other operations. -/
theorem stat_populates_info_and_returns_one (w : StatWorld)
    (d : WIN32_FILE_ATTRIBUTE_DATA) (hconv : w.wpathOk = true)
    (hattrs : w.getAttrs = some d)
    (hlo : d.nFileSizeLow < 2 ^ 32) (hhi : d.nFileSizeHigh < 2 ^ 32) :
    (SDL_SYS_FSstat w).1 = 1 ∧ (SDL_SYS_FSstat w).1 ≠ 0 ∧
    ∃ i, (SDL_SYS_FSstat w).2.1 = some i ∧
      (d.dwFileAttributes &&& FILE_ATTRIBUTE_DIRECTORY ≠ 0 →
        i.type = SDL_PathType.DIRECTORY ∧ i.size = 0) ∧
      (d.dwFileAttributes &&& FILE_ATTRIBUTE_DIRECTORY = 0 →
        d.dwFileAttributes &&& (FILE_ATTRIBUTE_OFFLINE ||| FILE_ATTRIBUTE_DEVICE) ≠ 0 →
        i.type = SDL_PathType.OTHER ∧
        i.size = d.nFileSizeHigh * 2 ^ 32 + d.nFileSizeLow) ∧
      (d.dwFileAttributes &&& FILE_ATTRIBUTE_DIRECTORY = 0 →
        d.dwFileAttributes &&& (FILE_ATTRIBUTE_OFFLINE ||| FILE_ATTRIBUTE_DEVICE) = 0 →
        i.type = SDL_PathType.FILE ∧
        i.size = d.nFileSizeHigh * 2 ^ 32 + d.nFileSizeLow) ∧
      i.create_time = FileTimeToSDLTime d.ftCreationTime ∧
      i.modify_time = FileTimeToSDLTime d.ftLastWriteTime ∧
      i.access_time = FileTimeToSDLTime d.ftLastAccessTime := by
  have hsize : ((d.nFileSizeHigh % 2 ^ 32) <<< 32) ||| (d.nFileSizeLow % 2 ^ 32)
      = d.nFileSizeHigh * 2 ^ 32 + d.nFileSizeLow := by
    rw [Nat.mod_eq_of_lt hhi, Nat.mod_eq_of_lt hlo]
    exact shiftLeft32_or_eq_mul_add d.nFileSizeHigh d.nFileSizeLow hlo
  by_cases hdir : d.dwFileAttributes &&& FILE_ATTRIBUTE_DIRECTORY = 0
  · by_cases hoth : d.dwFileAttributes &&& (FILE_ATTRIBUTE_OFFLINE ||| FILE_ATTRIBUTE_DEVICE) = 0
    · refine ⟨by simp [SDL_SYS_FSstat, hconv, hattrs], by simp [SDL_SYS_FSstat, hconv, hattrs], ?_⟩
      refine ⟨SDL_PathInfo.mk SDL_PathType.FILE
        (d.nFileSizeHigh * 2 ^ 32 + d.nFileSizeLow)
        (FileTimeToSDLTime d.ftCreationTime) (FileTimeToSDLTime d.ftLastWriteTime)
        (FileTimeToSDLTime d.ftLastAccessTime), ?_, ?_, ?_, ?_, rfl, rfl, rfl⟩
      · simp [SDL_SYS_FSstat, hconv, hattrs, hdir, hoth]
        simpa using hsize
      · intro h; exact absurd hdir h
      · intro _ h; exact absurd hoth h
      · intro _ _; exact ⟨rfl, rfl⟩
    · refine ⟨by simp [SDL_SYS_FSstat, hconv, hattrs], by simp [SDL_SYS_FSstat, hconv, hattrs], ?_⟩
      refine ⟨SDL_PathInfo.mk SDL_PathType.OTHER
        (d.nFileSizeHigh * 2 ^ 32 + d.nFileSizeLow)
        (FileTimeToSDLTime d.ftCreationTime) (FileTimeToSDLTime d.ftLastWriteTime)
        (FileTimeToSDLTime d.ftLastAccessTime), ?_, ?_, ?_, ?_, rfl, rfl, rfl⟩
      · simp [SDL_SYS_FSstat, hconv, hattrs, hdir, hoth]
        simpa using hsize
      · intro h; exact absurd hdir h
      · intro _ _; exact ⟨rfl, rfl⟩
      · intro _ h; exact absurd h (by simpa using hoth)
  · refine ⟨by simp [SDL_SYS_FSstat, hconv, hattrs], by simp [SDL_SYS_FSstat, hconv, hattrs], ?_⟩
    refine ⟨SDL_PathInfo.mk SDL_PathType.DIRECTORY 0
      (FileTimeToSDLTime d.ftCreationTime) (FileTimeToSDLTime d.ftLastWriteTime)
      (FileTimeToSDLTime d.ftLastAccessTime), ?_, ?_, ?_, ?_, rfl, rfl, rfl⟩
    · simp [SDL_SYS_FSstat, hconv, hattrs, hdir]
    · intro _; exact ⟨rfl, rfl⟩
    · intro h; exact absurd h (by simpa using hdir)
    · intro h; exact absurd h (by simpa using hdir)

/-- Witness for C5, at the concrete stat world of a five-byte regular file. -/
theorem stat_populates_info_and_returns_one_witness :
    (SDL_SYS_FSstat statDemoWorld).1 = 1 ∧ (SDL_SYS_FSstat statDemoWorld).1 ≠ 0 ∧
    ∃ i, (SDL_SYS_FSstat statDemoWorld).2.1 = some i ∧
      (statDemoData.dwFileAttributes &&& FILE_ATTRIBUTE_DIRECTORY ≠ 0 →
        i.type = SDL_PathType.DIRECTORY ∧ i.size = 0) ∧
      (statDemoData.dwFileAttributes &&& FILE_ATTRIBUTE_DIRECTORY = 0 →
        statDemoData.dwFileAttributes &&& (FILE_ATTRIBUTE_OFFLINE ||| FILE_ATTRIBUTE_DEVICE) ≠ 0 →
        i.type = SDL_PathType.OTHER ∧
        i.size = statDemoData.nFileSizeHigh * 2 ^ 32 + statDemoData.nFileSizeLow) ∧
      (statDemoData.dwFileAttributes &&& FILE_ATTRIBUTE_DIRECTORY = 0 →
        statDemoData.dwFileAttributes &&& (FILE_ATTRIBUTE_OFFLINE ||| FILE_ATTRIBUTE_DEVICE) = 0 →
        i.type = SDL_PathType.FILE ∧
        i.size = statDemoData.nFileSizeHigh * 2 ^ 32 + statDemoData.nFileSizeLow) ∧
      i.create_time = FileTimeToSDLTime statDemoData.ftCreationTime ∧
      i.modify_time = FileTimeToSDLTime statDemoData.ftLastWriteTime ∧
      i.access_time = FileTimeToSDLTime statDemoData.ftLastAccessTime :=
  stat_populates_info_and_returns_one statDemoWorld statDemoData rfl rfl
    (by decide) (by decide)

/-- C4: for an all-zero native timestamp the converter returns exactly 0;
otherwise it returns the signed narrowing of (t - 11644473600 * 10^7) / 10^7
computed in unsigned 64-bit arithmetic (subtraction modulo 2^64); and whenever
t is at least the epoch offset, the modular subtraction equals the exact
mathematical difference — no wraparound — and that difference fits in 64 bits,
so no overflow precedes the final signed narrowing. -/
theorem fileTimeToSDLTime_epoch_conversion (ft : FILETIME)
    (hlo : ft.dwLowDateTime < 2 ^ 32) (hhi : ft.dwHighDateTime < 2 ^ 32) :
    (ft.dwHighDateTime * 2 ^ 32 + ft.dwLowDateTime = 0 → FileTimeToSDLTime ft = 0) ∧
    (ft.dwHighDateTime * 2 ^ 32 + ft.dwLowDateTime ≠ 0 →
      FileTimeToSDLTime ft =
        toSigned64 ((ft.dwHighDateTime * 2 ^ 32 + ft.dwLowDateTime + 2 ^ 64
          - delta_1601_epoch_100ns) % 2 ^ 64 / 10000000)) ∧
    (delta_1601_epoch_100ns ≤ ft.dwHighDateTime * 2 ^ 32 + ft.dwLowDateTime →
      (ft.dwHighDateTime * 2 ^ 32 + ft.dwLowDateTime + 2 ^ 64
          - delta_1601_epoch_100ns) % 2 ^ 64
        = ft.dwHighDateTime * 2 ^ 32 + ft.dwLowDateTime - delta_1601_epoch_100ns ∧
      ft.dwHighDateTime * 2 ^ 32 + ft.dwLowDateTime - delta_1601_epoch_100ns < 2 ^ 64) := by
  have hd : delta_1601_epoch_100ns = 116444736000000000 := rfl
  have hdiv : SDL_NS_PER_SECOND / 100 = 10000000 := rfl
  refine ⟨fun h => ?_, fun h => ?_, fun h => ?_⟩
  · simp only [FileTimeToSDLTime, Nat.mod_eq_of_lt hlo, Nat.mod_eq_of_lt hhi]
    rw [if_pos h]
  · simp only [FileTimeToSDLTime, Nat.mod_eq_of_lt hlo, Nat.mod_eq_of_lt hhi, hdiv]
    rw [if_neg h]
  · constructor
    · omega
    · omega

/-- Witness for C4, at the all-zero FILETIME and at the FILETIME whose tick
count equals the 1601-to-1970 offset exactly. -/
theorem fileTimeToSDLTime_epoch_conversion_witness :
    FileTimeToSDLTime (FILETIME.mk 0 0) = 0 ∧
    (FileTimeToSDLTime (FILETIME.mk 3577643008 27111902) =
      toSigned64 ((27111902 * 2 ^ 32 + 3577643008 + 2 ^ 64
        - delta_1601_epoch_100ns) % 2 ^ 64 / 10000000) ∧
    ((27111902 * 2 ^ 32 + 3577643008 + 2 ^ 64 - delta_1601_epoch_100ns) % 2 ^ 64
        = 27111902 * 2 ^ 32 + 3577643008 - delta_1601_epoch_100ns ∧
      27111902 * 2 ^ 32 + 3577643008 - delta_1601_epoch_100ns < 2 ^ 64)) :=
  ⟨(fileTimeToSDLTime_epoch_conversion (FILETIME.mk 0 0)
      (by decide) (by decide)).1 (by decide),
   (fileTimeToSDLTime_epoch_conversion (FILETIME.mk 3577643008 27111902)
      (by decide) (by decide)).2.1 (by decide),
   (fileTimeToSDLTime_epoch_conversion (FILETIME.mk 3577643008 27111902)
      (by decide) (by decide)).2.2 (by decide)⟩

/-- C10: for a nonzero tick count strictly below the 1601-to-1970 offset, the
subtraction wraps modulo 2^64 before the division, so the converter returns
the signed narrowing of the wrapped quotient — a strictly positive value —
rather than the small negative seconds count of the true pre-epoch time. -/
theorem fileTimeToSDLTime_pre_epoch_wraps (ft : FILETIME)
    (hlo : ft.dwLowDateTime < 2 ^ 32) (hhi : ft.dwHighDateTime < 2 ^ 32)
    (hpos : 0 < ft.dwHighDateTime * 2 ^ 32 + ft.dwLowDateTime)
    (hlt : ft.dwHighDateTime * 2 ^ 32 + ft.dwLowDateTime < delta_1601_epoch_100ns) :
    FileTimeToSDLTime ft =
      toSigned64 ((ft.dwHighDateTime * 2 ^ 32 + ft.dwLowDateTime + 2 ^ 64
        - delta_1601_epoch_100ns) % 2 ^ 64 / 10000000) ∧
    FileTimeToSDLTime ft =
      Int.ofNat ((ft.dwHighDateTime * 2 ^ 32 + ft.dwLowDateTime + 2 ^ 64
        - delta_1601_epoch_100ns) / 10000000) ∧
    0 < FileTimeToSDLTime ft := by
  have hd : delta_1601_epoch_100ns = 116444736000000000 := rfl
  have hdiv : SDL_NS_PER_SECOND / 100 = 10000000 := rfl
  have ht0 : ft.dwHighDateTime * 2 ^ 32 + ft.dwLowDateTime ≠ 0 := by omega
  have hmod : (ft.dwHighDateTime * 2 ^ 32 + ft.dwLowDateTime + 2 ^ 64
      - delta_1601_epoch_100ns) % 2 ^ 64
      = ft.dwHighDateTime * 2 ^ 32 + ft.dwLowDateTime + 2 ^ 64
        - delta_1601_epoch_100ns := by omega
  have hq63 : (ft.dwHighDateTime * 2 ^ 32 + ft.dwLowDateTime + 2 ^ 64
      - delta_1601_epoch_100ns) / 10000000 < 2 ^ 63 := by omega
  have hq1 : 1 ≤ (ft.dwHighDateTime * 2 ^ 32 + ft.dwLowDateTime + 2 ^ 64
      - delta_1601_epoch_100ns) / 10000000 := by omega
  have heval : FileTimeToSDLTime ft =
      toSigned64 ((ft.dwHighDateTime * 2 ^ 32 + ft.dwLowDateTime + 2 ^ 64
        - delta_1601_epoch_100ns) % 2 ^ 64 / 10000000) := by
    simp only [FileTimeToSDLTime, Nat.mod_eq_of_lt hlo, Nat.mod_eq_of_lt hhi, hdiv]
    rw [if_neg ht0]
  have hofNat : FileTimeToSDLTime ft =
      Int.ofNat ((ft.dwHighDateTime * 2 ^ 32 + ft.dwLowDateTime + 2 ^ 64
        - delta_1601_epoch_100ns) / 10000000) := by
    rw [heval, hmod]
    simp only [toSigned64]
    rw [Nat.mod_eq_of_lt (by omega)]
    rw [if_pos hq63]
    rfl
  refine ⟨heval, hofNat, ?_⟩
  rw [hofNat]
  exact Int.ofNat_pos.mpr hq1

/-- Witness for C10, at the FILETIME for one second past the 1601 epoch. -/
theorem fileTimeToSDLTime_pre_epoch_wraps_witness :
    FileTimeToSDLTime (FILETIME.mk 10000000 0) =
      toSigned64 ((0 * 2 ^ 32 + 10000000 + 2 ^ 64
        - delta_1601_epoch_100ns) % 2 ^ 64 / 10000000) ∧
    FileTimeToSDLTime (FILETIME.mk 10000000 0) =
      Int.ofNat ((0 * 2 ^ 32 + 10000000 + 2 ^ 64 - delta_1601_epoch_100ns) / 10000000) ∧
    0 < FileTimeToSDLTime (FILETIME.mk 10000000 0) :=
  fileTimeToSDLTime_pre_epoch_wraps (FILETIME.mk 10000000 0)
    (by decide) (by decide) (by decide) (by decide)

theorem enumerate_empty_eq (w : EnumWorld) (dirname : String) :
    SDL_SYS_FSenumerate w ("") dirname =
      ((driveLoop w.drives w.cb dirname (List.range 26) 0).1,
       Event.queryDrives :: (driveLoop w.drives w.cb dirname (List.range 26) 0).2) := by
  simp [SDL_SYS_FSenumerate]

theorem enumerate_mallocFail_eq (w : EnumWorld) (fullpath dirname : String)
    (hfp : fullpath ≠ "") (hm : w.mallocOk = false) :
    SDL_SYS_FSenumerate w fullpath dirname = (-1, []) := by
  simp [SDL_SYS_FSenumerate, hfp, hm]

theorem enumerate_wpatternFail_eq (w : EnumWorld) (fullpath dirname : String)
    (hfp : fullpath ≠ "") (hm : w.mallocOk = true) (hwp : w.wpatternOk = false) :
    SDL_SYS_FSenumerate w fullpath dirname =
      (-1, [Event.alloc Res.pattern, Event.free Res.pattern]) := by
  simp [SDL_SYS_FSenumerate, hfp, hm, hwp]

theorem enumerate_findFail_eq (w : EnumWorld) (fullpath dirname : String)
    (hfp : fullpath ≠ "") (hm : w.mallocOk = true) (hwp : w.wpatternOk = true)
    (hf : w.findFirst = none) :
    SDL_SYS_FSenumerate w fullpath dirname =
      (-1, [Event.alloc Res.pattern, Event.alloc Res.wpattern, Event.free Res.pattern,
            Event.findFirst, Event.free Res.wpattern, Event.setError]) := by
  simp [SDL_SYS_FSenumerate, hfp, hm, hwp, hf]

theorem enumerate_open_eq (w : EnumWorld) (fullpath dirname : String)
    (hfp : fullpath ≠ "") (hm : w.mallocOk = true) (hwp : w.wpatternOk = true)
    (entw : WStr) (rest : List WStr) (hf : w.findFirst = some (entw, rest)) :
    SDL_SYS_FSenumerate w fullpath dirname =
      ((enumLoop w.toUTF8 w.cb dirname entw rest 0).1,
       [Event.alloc Res.pattern, Event.alloc Res.wpattern, Event.free Res.pattern,
        Event.findFirst, Event.alloc Res.findHandle, Event.free Res.wpattern]
       ++ (enumLoop w.toUTF8 w.cb dirname entw rest 0).2
       ++ [Event.findClose, Event.free Res.findHandle]) := by
  simp [SDL_SYS_FSenumerate, hfp, hm, hwp, hf]

/-- C3: in every enumeration, once a callback invocation returns a value
other than 1, the trace contains no further callback invocation and no
further native next-entry call, and the enumeration returns that callback
value; in particular, in the concrete five-entry world whose callback returns
0 on its third invocation, exactly three callback invocations happen and the
enumeration returns 0. -/
theorem enumerate_propagates_terminal_callback_result :
    (∀ (w : EnumWorld) (fullpath dirname : String),
      stopsOnNonOne (SDL_SYS_FSenumerate w fullpath dirname).2
        (SDL_SYS_FSenumerate w fullpath dirname).1) ∧
    countCb (SDL_SYS_FSenumerate demoStopWorld ("somedir") ("dir")).2 = 3 ∧
    (SDL_SYS_FSenumerate demoStopWorld ("somedir") ("dir")).1 = 0 := by
  refine ⟨?_, by decide, by decide⟩
  intro w fullpath dirname
  by_cases hfp : fullpath = ""
  · subst hfp
    rw [enumerate_empty_eq]
    exact (stopsOnNonOne_cons_of_not_cb Event.queryDrives _ _ rfl).mpr
      (driveLoop_stops w.drives w.cb dirname (List.range 26) 0)
  · cases hm : w.mallocOk with
    | false =>
      rw [enumerate_mallocFail_eq w fullpath dirname hfp hm]
      exact trivial
    | true =>
      cases hwp : w.wpatternOk with
      | false =>
        rw [enumerate_wpatternFail_eq w fullpath dirname hfp hm hwp]
        exact stopsOnNonOne_of_all_not_cb _ _ (by decide)
      | true =>
        cases hf : w.findFirst with
        | none =>
          rw [enumerate_findFail_eq w fullpath dirname hfp hm hwp hf]
          exact stopsOnNonOne_of_all_not_cb _ _ (by decide)
        | some pr =>
          rcases pr with ⟨entw, rest⟩
          rw [enumerate_open_eq w fullpath dirname hfp hm hwp entw rest hf]
          rw [List.append_assoc]
          exact (stopsOnNonOne_append_front _ _ _ (by decide)).mpr
            (stopsOnNonOne_append_back _ _ _
              (enumLoop_stops w.toUTF8 w.cb dirname entw rest 0) (by decide))

/-- C6 counterexample: the claim demands exactly one delivered entry per set
drive bit on every empty-path enumeration, but with drive bits A and B both
set and a callback that returns 0 immediately, only one callback invocation
happens (the loop stops), not two. -/
theorem enumerate_drives_early_stop_counterexample :
    Nat.testBit 3 0 = true ∧ Nat.testBit 3 1 = true ∧
    countCb (SDL_SYS_FSenumerate earlyStopDrivesWorld ("") ("d")).2 = 1 ∧
    countCb (SDL_SYS_FSenumerate earlyStopDrivesWorld ("") ("d")).2 ≠ 2 ∧
    (SDL_SYS_FSenumerate earlyStopDrivesWorld ("") ("d")).1 = 0 := by
  decide

/-- C6 amended: on an empty full path with a callback that always returns 1
(continue), the driver queries the drive bitmask and the whole trace is that
query followed by exactly one callback invocation per set bit among bits 0-25,
in ascending drive-letter order, each named "X:" with a colon, with the
logical directory name passed through and a NULL parent — and nothing else: in
particular no native directory search is opened. -/
theorem enumerate_drives_one_entry_per_bit (w : EnumWorld) (dirname : String)
    (hcb : ∀ k n, w.cb k n = 1) :
    (SDL_SYS_FSenumerate w ("") dirname).1 = 1 ∧
    (SDL_SYS_FSenumerate w ("") dirname).2 =
      Event.queryDrives ::
        ((List.range 26).filter fun i => w.drives.testBit i).map
          (fun i => Event.cbCall none dirname (driveName i) 1) ∧
    Event.findFirst ∉ (SDL_SYS_FSenumerate w ("") dirname).2 ∧
    Event.alloc Res.findHandle ∉ (SDL_SYS_FSenumerate w ("") dirname).2 := by
  have h := driveLoop_const_one w.drives w.cb dirname hcb (List.range 26) 0
  rw [enumerate_empty_eq w dirname, h]
  refine ⟨rfl, rfl, ?_, ?_⟩
  · simp [List.mem_map]
  · simp [List.mem_map]

/-- Witness for the amended C6, at the concrete world with drive bits A and C
set and an always-continue callback. -/
theorem enumerate_drives_one_entry_per_bit_witness :
    (SDL_SYS_FSenumerate allOneDrivesWorld ("") ("d")).1 = 1 ∧
    (SDL_SYS_FSenumerate allOneDrivesWorld ("") ("d")).2 =
      Event.queryDrives ::
        ((List.range 26).filter fun i => allOneDrivesWorld.drives.testBit i).map
          (fun i => Event.cbCall none ("d") (driveName i) 1) ∧
    Event.findFirst ∉ (SDL_SYS_FSenumerate allOneDrivesWorld ("") ("d")).2 ∧
    Event.alloc Res.findHandle ∉ (SDL_SYS_FSenumerate allOneDrivesWorld ("") ("d")).2 :=
  enumerate_drives_one_entry_per_bit allOneDrivesWorld ("d") (fun _ _ => rfl)

/-- C7 counterexample: the claim demands that every non-dot entry found by the
native search be delivered, but in the concrete world whose single found entry
has a failing UTF-8 conversion, no callback invocation happens at all and the
call returns -1: the found entry is never delivered. -/
theorem enumerate_found_entry_not_delivered_counterexample :
    convFailWorld.findFirst = some ([65], []) ∧ isDotEntry [65] = false ∧
    cbEvents (SDL_SYS_FSenumerate convFailWorld ("somedir") ("d")).2 = [] ∧
    (SDL_SYS_FSenumerate convFailWorld ("somedir") ("d")).1 = -1 := by
  decide

/-- C7 amended: in every directory enumeration whose native search opens, the
callback invocations are exactly those the spec-side reference produces:
scanning the found entries in order, entries named "." or ".." are never
delivered, every other found entry whose UTF-8 conversion succeeds is
delivered with the caller's logical directory name passed through unchanged
and a NULL parent, and delivery stops only at a conversion failure or a
non-1 callback result; when the search fails to open, no entry is ever
delivered. -/
theorem enumerate_delivers_exactly_nondot_converted (w : EnumWorld)
    (fullpath dirname : String) (hfp : fullpath ≠ "")
    (hm : w.mallocOk = true) (hwp : w.wpatternOk = true) :
    (∀ entw rest, w.findFirst = some (entw, rest) →
      cbEvents (SDL_SYS_FSenumerate w fullpath dirname).2 =
        (specEnumDelivered w.toUTF8 w.cb (entw :: rest) 0).map
          fun p => Event.cbCall none dirname p.1 p.2) ∧
    (w.findFirst = none → cbEvents (SDL_SYS_FSenumerate w fullpath dirname).2 = []) := by
  constructor
  · intro entw rest hf
    rw [enumerate_open_eq w fullpath dirname hfp hm hwp entw rest hf]
    show cbEvents (_ ++ _ ++ _) = _
    rw [List.append_assoc, cbEvents_append, cbEvents_append]
    rw [enumLoop_cbEvents w.toUTF8 w.cb dirname entw rest 0]
    simp [cbEvents, isCb]
  · intro hf
    rw [enumerate_findFail_eq w fullpath dirname hfp hm hwp hf]
    decide

/-- Witness for the amended C7, at the concrete five-entry early-stop world. -/
theorem enumerate_delivers_exactly_nondot_converted_witness :
    cbEvents (SDL_SYS_FSenumerate demoStopWorld ("somedir") ("dir")).2 =
      (specEnumDelivered demoStopWorld.toUTF8 demoStopWorld.cb
          ([65] :: [[66], [67], [68], [69]]) 0).map
        fun p => Event.cbCall none ("dir") p.1 p.2 :=
  (enumerate_delivers_exactly_nondot_converted demoStopWorld ("somedir") ("dir")
    (by decide) rfl rfl).1 [65] [[66], [67], [68], [69]] rfl

/-- C9 counterexample: the claim demands that every enumeration in which no
callback invocation returns a non-1 value return 1, but in the concrete world
whose pattern-buffer allocation fails there is no callback invocation at all
and the call returns -1, not 1. -/
theorem enumerate_no_callbacks_failure_counterexample :
    cbEvents (SDL_SYS_FSenumerate mallocFailWorld ("somedir") ("d")).2 = [] ∧
    (SDL_SYS_FSenumerate mallocFailWorld ("somedir") ("d")).1 = -1 ∧
    (SDL_SYS_FSenumerate mallocFailWorld ("somedir") ("d")).1 ≠ 1 := by
  decide

/-- C9 amended: every enumeration in which no allocation, conversion or
native failure occurs and every callback invocation returns 1 — including the
empty-path drive enumeration with any bitmask, even zero drives — returns 1,
the initial running value, not the 0 terminal-success code of the other
operations. -/
theorem enumerate_all_continue_returns_one (w : EnumWorld)
    (fullpath dirname : String) (hcb : ∀ k n, w.cb k n = 1) :
    (fullpath = "" → (SDL_SYS_FSenumerate w fullpath dirname).1 = 1) ∧
    (fullpath ≠ "" → w.mallocOk = true → w.wpatternOk = true →
      ∀ entw rest, w.findFirst = some (entw, rest) →
      (∀ x, x ∈ entw :: rest → (w.toUTF8 x).isSome = true) →
      (SDL_SYS_FSenumerate w fullpath dirname).1 = 1) := by
  constructor
  · intro h
    subst h
    rw [enumerate_empty_eq w dirname, driveLoop_const_one w.drives w.cb dirname hcb]
  · intro hfp hm hwp entw rest hf hconv
    rw [enumerate_open_eq w fullpath dirname hfp hm hwp entw rest hf]
    exact enumLoop_const_one w.toUTF8 w.cb dirname entw rest 0 hcb hconv

/-- Witness for the amended C9, at the zero-drive empty-path world and at the
two-entry directory world with an always-continue callback. -/
theorem enumerate_all_continue_returns_one_witness :
    (SDL_SYS_FSenumerate allOneEntriesWorld ("") ("d")).1 = 1 ∧
    (SDL_SYS_FSenumerate allOneEntriesWorld ("somedir") ("d")).1 = 1 :=
  ⟨(enumerate_all_continue_returns_one allOneEntriesWorld ("") ("d")
      (fun _ _ => rfl)).1 rfl,
   (enumerate_all_continue_returns_one allOneEntriesWorld ("somedir") ("d")
      (fun _ _ => rfl)).2 (by decide) rfl rfl [65] [[66]] rfl (by decide)⟩

end SDLFsops
